import Mathlib

/-!
Verification of the image-trailer state machine of `boot/bootutil/src/bootutil_public.c`
(dual-slot firmware-update bootloader core).

The C source is shallowly embedded: flash areas become a `Flash` structure holding the
area geometry, the byte contents as a function, and success predicates for the three
flash-driver operations; stateful operations thread a `FlashST` value that also records
the trace of write/erase calls issued to the driver.  Machine bytes are `Nat` values
truncated with `% 256` exactly where the C types are `uint8_t`.

The numeric constants (`BOOT_MAGIC_GOOD`, swap types, error codes, `BOOT_MAX_ALIGN`,
and the swap-info bit macros) live in `bootutil/bootutil_public.h`, which is not part
of the sources at hand; they are modelled from the specification text and marked as
such in their doc comments.  Everything else is transcribed from `bootutil_public.c`.
-/

namespace Bootutil

/-- Modelled from the spec: decoded magic state GOOD (exact match), from the missing
header `bootutil_public.h`.  Only distinctness of the five magic codes matters. -/
def BOOT_MAGIC_GOOD : Nat := 1

/-- Modelled from the spec: decoded magic state BAD (garbage), from the missing header. -/
def BOOT_MAGIC_BAD : Nat := 2

/-- Modelled from the spec: decoded magic state UNSET (all bytes erased), from the
missing header. -/
def BOOT_MAGIC_UNSET : Nat := 3

/-- Modelled from the spec: table pseudo-value ANY for magic fields, from the missing
header. -/
def BOOT_MAGIC_ANY : Nat := 4

/-- Modelled from the spec: table pseudo-value NOTGOOD (either UNSET or BAD), from the
missing header. -/
def BOOT_MAGIC_NOTGOOD : Nat := 5

/-- Modelled from the spec: flag state SET; the spec fixes the on-flash byte to 0x01
and `boot_flag_decode` compares the raw byte against this code. -/
def BOOT_FLAG_SET : Nat := 1

/-- Modelled from the spec: flag state BAD, from the missing header. -/
def BOOT_FLAG_BAD : Nat := 2

/-- Modelled from the spec: flag state UNSET (byte equals erased value), from the
missing header. -/
def BOOT_FLAG_UNSET : Nat := 3

/-- Modelled from the spec: table pseudo-value ANY for flag fields, from the missing
header. -/
def BOOT_FLAG_ANY : Nat := 4

/-- Modelled from the spec: swap type NONE = 0 (spec section 3.3). -/
def BOOT_SWAP_TYPE_NONE : Nat := 0

/-- Modelled from the spec: swap type TEST = 1 (spec section 3.3). -/
def BOOT_SWAP_TYPE_TEST : Nat := 1

/-- Modelled from the spec: swap type PERM = 2 (spec section 3.3). -/
def BOOT_SWAP_TYPE_PERM : Nat := 2

/-- Modelled from the spec: swap type REVERT = 3 (spec section 3.3). -/
def BOOT_SWAP_TYPE_REVERT : Nat := 3

/-- Modelled from the spec: swap type FAIL = 4 (spec section 3.3). -/
def BOOT_SWAP_TYPE_FAIL : Nat := 4

/-- Modelled from the spec: sentinel swap type PANIC = 0xff (spec section 3.3). -/
def BOOT_SWAP_TYPE_PANIC : Nat := 0xff

/-- Modelled from the spec: error code EFLASH (a flash driver operation failed); the
spec only requires stable distinct nonzero integer identities. -/
def BOOT_EFLASH : Int := 1

/-- Modelled from the spec: error code EBADIMAGE, from the missing header. -/
def BOOT_EBADIMAGE : Int := 2

/-- Modelled from the spec: error code EBADVECT, from the missing header. -/
def BOOT_EBADVECT : Int := 3

/-- Size in bytes of the trailer magic (`BOOT_MAGIC_SZ`, sizeof of the four 32-bit
words of `boot_img_magic`). -/
def BOOT_MAGIC_SZ : Nat := 16

/-- Modelled from the spec: `BOOT_MAX_ALIGN`, the compile-time maximum write alignment
from the missing header; the spec concrete examples (section 8.2) fix it to 8. -/
def BOOT_MAX_ALIGN : Nat := 8

/-- The canonical trailer magic as its 16-byte little-endian serialization; the source
stores it as the four 32-bit words f395c277 7fefd260 0f505235 8079b62c. -/
def boot_img_magic : List Nat :=
  [0x77, 0xc2, 0x95, 0xf3, 0x60, 0xd2, 0xef, 0x7f,
   0x35, 0x52, 0x50, 0x0f, 0x2c, 0xb6, 0x79, 0x80]

/-- Modelled from the spec: the packing macro `BOOT_SET_SWAP_INFO` from the missing
header, spec section 4.2: `(image_num << 4) | (swap_type & 0x0f)`, stored in a
`uint8_t`. -/
def BOOT_SET_SWAP_INFO (image_num swap_type : Nat) : Nat :=
  ((image_num <<< 4) ||| (swap_type &&& 0x0f)) % 256

/-- Modelled from the spec: `BOOT_GET_SWAP_TYPE`, the low nibble of the swap-info
byte (missing header, spec section 4.2). -/
def BOOT_GET_SWAP_TYPE (swap_info : Nat) : Nat := swap_info &&& 0x0f

/-- Modelled from the spec: `BOOT_GET_IMAGE_NUM`, the high nibble of the swap-info
byte (missing header, spec section 4.2). -/
def BOOT_GET_IMAGE_NUM (swap_info : Nat) : Nat := swap_info >>> 4

/-- A flash area as seen through the flash-map backend capability: geometry, erased
byte value, current byte contents, and which driver operations succeed. -/
structure Flash where
  size : Nat
  align : Nat
  erased_val : Nat
  data : Nat → Nat
  read_ok : Nat → Nat → Bool
  write_ok : Nat → Nat → Bool
  erase_ok : Nat → Nat → Bool

/-- Source `flash_area_erased_val` returns a `uint8_t`: the erased value truncated to a byte. -/
def Flash.erasedByte (f : Flash) : Nat := f.erased_val % 256

/-- Source `flash_area_read`: reads `len` bytes at `off`; each byte is the stored content
truncated to `uint8_t`.  `none` models a nonzero return code from the driver. -/
def flash_area_read (f : Flash) (off len : Nat) : Option (List Nat) :=
  if f.read_ok off len then some ((List.range len).map (fun i => f.data (off + i) % 256))
  else none

/-- Source `bootutil_buffer_is_filled`: true iff the buffer is nonempty and every byte equals
`fill` (a NULL buffer, not representable here, also yields false in the source). -/
def bootutil_buffer_is_filled (buffer : List Nat) (fill : Nat) : Bool :=
  if buffer.length = 0 then false else buffer.all (fun b => b = fill)

/-- Source `bootutil_buffer_is_erased`: the buffer is filled with the area erased value. -/
def bootutil_buffer_is_erased (f : Flash) (buffer : List Nat) : Bool :=
  bootutil_buffer_is_filled buffer f.erasedByte

/-- Source `boot_magic_decode`: GOOD on an exact 16-byte match of the canonical magic,
BAD otherwise. -/
def boot_magic_decode (magic : List Nat) : Nat :=
  if magic = boot_img_magic then BOOT_MAGIC_GOOD else BOOT_MAGIC_BAD

/-- Source `boot_flag_decode`: any byte other than `BOOT_FLAG_SET` decodes as BAD. -/
def boot_flag_decode (flag : Nat) : Nat :=
  if flag ≠ BOOT_FLAG_SET then BOOT_FLAG_BAD else BOOT_FLAG_SET

/-- Source `boot_magic_off`: the magic occupies the last `BOOT_MAGIC_SZ` bytes of the area. -/
def boot_magic_off (f : Flash) : Nat := f.size - BOOT_MAGIC_SZ

/-- Source `boot_image_ok_off`: one `BOOT_MAX_ALIGN` step below the magic. -/
def boot_image_ok_off (f : Flash) : Nat := boot_magic_off f - BOOT_MAX_ALIGN

/-- Source `boot_copy_done_off`: one `BOOT_MAX_ALIGN` step below image-ok. -/
def boot_copy_done_off (f : Flash) : Nat := boot_image_ok_off f - BOOT_MAX_ALIGN

/-- Source `boot_swap_info_off`: one `BOOT_MAX_ALIGN` step below copy-done. -/
def boot_swap_info_off (f : Flash) : Nat := boot_copy_done_off f - BOOT_MAX_ALIGN

/-- Source `boot_magic_compatible_check`: ANY matches everything, NOTGOOD matches everything
but GOOD, any other table value requires exact equality. -/
def boot_magic_compatible_check (tbl_val val : Nat) : Bool :=
  if tbl_val = BOOT_MAGIC_ANY then true
  else if tbl_val = BOOT_MAGIC_NOTGOOD then val ≠ BOOT_MAGIC_GOOD
  else tbl_val = val

/-- Source `boot_read_flag`: read one byte; erased value decodes as UNSET, otherwise apply
`boot_flag_decode`.  A driver failure becomes `BOOT_EFLASH`. -/
def boot_read_flag (f : Flash) (off : Nat) : Except Int Nat :=
  match flash_area_read f off 1 with
  | none => .error BOOT_EFLASH
  | some buf =>
    let b := buf.headD 0
    if b = f.erasedByte then .ok BOOT_FLAG_UNSET else .ok (boot_flag_decode b)

/-- Source `boot_read_copy_done`: `boot_read_flag` at the copy-done offset. -/
def boot_read_copy_done (f : Flash) : Except Int Nat :=
  boot_read_flag f (boot_copy_done_off f)

/-- Source `boot_read_image_ok`: `boot_read_flag` at the image-ok offset. -/
def boot_read_image_ok (f : Flash) : Except Int Nat :=
  boot_read_flag f (boot_image_ok_off f)

/-- Source `struct boot_swap_state`: the decoded trailer of one slot. -/
structure BootSwapState where
  magic : Nat
  swap_type : Nat
  copy_done : Nat
  image_ok : Nat
  image_num : Nat
deriving DecidableEq

instance {ε α : Type} [DecidableEq ε] [DecidableEq α] : DecidableEq (Except ε α) :=
  fun x y =>
    match x, y with
    | .ok a, .ok b =>
      if h : a = b then .isTrue (congrArg Except.ok h)
      else .isFalse (fun hh => h (Except.ok.inj hh))
    | .error a, .error b =>
      if h : a = b then .isTrue (congrArg Except.error h)
      else .isFalse (fun hh => h (Except.error.inj hh))
    | .ok _, .error _ => .isFalse (fun hh => Except.noConfusion hh)
    | .error _, .ok _ => .isFalse (fun hh => Except.noConfusion hh)

/-- Source `boot_read_swap_state`: decode magic, swap-info (normalizing erased or
out-of-range swap types to NONE/0), copy-done and image-ok; any driver read failure
surfaces as `BOOT_EFLASH`. -/
def boot_read_swap_state (f : Flash) : Except Int BootSwapState :=
  match flash_area_read f (boot_magic_off f) BOOT_MAGIC_SZ with
  | none => .error BOOT_EFLASH
  | some magic =>
    let magic_state :=
      if bootutil_buffer_is_erased f magic then BOOT_MAGIC_UNSET
      else boot_magic_decode magic
    match flash_area_read f (boot_swap_info_off f) 1 with
    | none => .error BOOT_EFLASH
    | some buf =>
      let swap_info := buf.headD 0
      let swap_type := BOOT_GET_SWAP_TYPE swap_info
      let image_num := BOOT_GET_IMAGE_NUM swap_info
      let norm := swap_info = f.erasedByte ∨ BOOT_SWAP_TYPE_REVERT < swap_type
      let swap_type := if norm then BOOT_SWAP_TYPE_NONE else swap_type
      let image_num := if norm then 0 else image_num
      match boot_read_copy_done f with
      | .error _ => .error BOOT_EFLASH
      | .ok copy_done =>
        match boot_read_image_ok f with
        | .error e => .error e
        | .ok image_ok =>
          .ok ⟨magic_state, swap_type, copy_done, image_ok, image_num⟩

/-- One call issued to the flash driver that can alter flash contents. -/
inductive FlashOp where
  | writeOp (off : Nat) (buf : List Nat)
  | eraseOp (off : Nat) (len : Nat)
deriving DecidableEq

/-- A flash area together with the trace of driver write/erase calls issued so far. -/
structure FlashST where
  flash : Flash
  trace : List FlashOp

/-- Overlay `buf` on `data` starting at `off`. -/
def writeBytes (data : Nat → Nat) (off : Nat) (buf : List Nat) : Nat → Nat :=
  fun a => if off ≤ a ∧ a < off + buf.length then buf.getD (a - off) 0 else data a

/-- Source `flash_area_write`: records the call in the trace; on success the bytes land in
the area, on failure the contents are unchanged and a nonzero code is returned. -/
def fa_write (s : FlashST) (off : Nat) (buf : List Nat) : Int × FlashST :=
  if s.flash.write_ok off buf.length then
    (0, ⟨{ s.flash with data := writeBytes s.flash.data off buf },
         s.trace ++ [.writeOp off buf]⟩)
  else
    (-1, ⟨s.flash, s.trace ++ [.writeOp off buf]⟩)

/-- Source `flash_area_erase`: records the call; on success the range reads back as the
erased value. -/
def fa_erase (s : FlashST) (off len : Nat) : Int × FlashST :=
  if s.flash.erase_ok off len then
    (0, ⟨{ s.flash with data := fun a =>
            if off ≤ a ∧ a < off + len then s.flash.erased_val else s.flash.data a },
         s.trace ++ [.eraseOp off len]⟩)
  else
    (-1, ⟨s.flash, s.trace ++ [.eraseOp off len]⟩)

/-- Source `boot_write_trailer`: pad the payload with erased bytes up to the flash write
alignment (the C rounds with `& ~(align - 1)`, which for the power-of-two alignments
the flash capability guarantees equals rounding up to a multiple of `align`), reject
a zero alignment or a padded length above `BOOT_MAX_ALIGN`, and issue one write. -/
def boot_write_trailer (s : FlashST) (off : Nat) (inbuf : List Nat) :
    Int × FlashST :=
  let align := s.flash.align
  if align = 0 then (BOOT_EFLASH, s)
  else
    let inlen := inbuf.length
    let alignedLen := (inlen + align - 1) - (inlen + align - 1) % align
    if BOOT_MAX_ALIGN < alignedLen then (-1, s)
    else
      let buf := inbuf ++ List.replicate (alignedLen - inlen) s.flash.erasedByte
      let r := fa_write s off buf
      if r.1 ≠ 0 then (BOOT_EFLASH, r.2) else (0, r.2)

/-- Source `boot_write_trailer_flag`: `boot_write_trailer` with a single-byte payload. -/
def boot_write_trailer_flag (s : FlashST) (off : Nat) (flag_val : Nat) :
    Int × FlashST :=
  boot_write_trailer s off [flag_val]

/-- Source `boot_write_image_ok`: write `BOOT_FLAG_SET` at the image-ok offset. -/
def boot_write_image_ok (s : FlashST) : Int × FlashST :=
  boot_write_trailer_flag s (boot_image_ok_off s.flash) BOOT_FLAG_SET

/-- Source `boot_write_magic`: write the 16 magic bytes at the magic offset. -/
def boot_write_magic (s : FlashST) : Int × FlashST :=
  let r := fa_write s (boot_magic_off s.flash) boot_img_magic
  if r.1 ≠ 0 then (BOOT_EFLASH, r.2) else (0, r.2)

/-- Source `boot_write_swap_info`: pack the image number and swap type and write the byte at
the swap-info offset. -/
def boot_write_swap_info (s : FlashST) (swap_type image_num : Nat) : Int × FlashST :=
  boot_write_trailer s (boot_swap_info_off s.flash)
    [BOOT_SET_SWAP_INFO image_num swap_type]

/-- One row of `boot_swap_tables` (`struct boot_swap_table`). -/
structure BootSwapTable where
  magic_primary_slot : Nat
  magic_secondary_slot : Nat
  image_ok_primary_slot : Nat
  image_ok_secondary_slot : Nat
  copy_done_primary_slot : Nat
  swap_type : Nat
deriving DecidableEq

/-- The static three-row decision table `boot_swap_tables`, in source order. -/
def boot_swap_tables : List BootSwapTable :=
  [⟨BOOT_MAGIC_ANY, BOOT_MAGIC_GOOD, BOOT_FLAG_ANY, BOOT_FLAG_UNSET, BOOT_FLAG_ANY,
    BOOT_SWAP_TYPE_TEST⟩,
   ⟨BOOT_MAGIC_ANY, BOOT_MAGIC_GOOD, BOOT_FLAG_ANY, BOOT_FLAG_SET, BOOT_FLAG_ANY,
    BOOT_SWAP_TYPE_PERM⟩,
   ⟨BOOT_MAGIC_GOOD, BOOT_MAGIC_UNSET, BOOT_FLAG_UNSET, BOOT_FLAG_ANY, BOOT_FLAG_SET,
    BOOT_SWAP_TYPE_REVERT⟩]

/-- The per-row predicate of the matching loop in `boot_swap_type_multi`. -/
def rowMatches (t : BootSwapTable) (primary secondary : BootSwapState) : Bool :=
  boot_magic_compatible_check t.magic_primary_slot primary.magic &&
  boot_magic_compatible_check t.magic_secondary_slot secondary.magic &&
  (t.image_ok_primary_slot = BOOT_FLAG_ANY ||
    t.image_ok_primary_slot = primary.image_ok) &&
  (t.image_ok_secondary_slot = BOOT_FLAG_ANY ||
    t.image_ok_secondary_slot = secondary.image_ok) &&
  (t.copy_done_primary_slot = BOOT_FLAG_ANY ||
    t.copy_done_primary_slot = primary.copy_done)

/-- The table-matching loop of `boot_swap_type_multi`: first matching row wins, its
swap type is checked defensively against {TEST, PERM, REVERT}, and no match yields
NONE. -/
def boot_swap_type_match (primary secondary : BootSwapState) : Nat :=
  match boot_swap_tables.find? (fun t => rowMatches t primary secondary) with
  | some t =>
    if t.swap_type ≠ BOOT_SWAP_TYPE_TEST ∧ t.swap_type ≠ BOOT_SWAP_TYPE_PERM ∧
        t.swap_type ≠ BOOT_SWAP_TYPE_REVERT then
      BOOT_SWAP_TYPE_PANIC
    else t.swap_type
  | none => BOOT_SWAP_TYPE_NONE

/-- The swap state `boot_swap_type_multi` synthesizes for an unreachable secondary
slot (all UNSET, swap type NONE, image number 0). -/
def emptySecondaryState : BootSwapState :=
  ⟨BOOT_MAGIC_UNSET, BOOT_SWAP_TYPE_NONE, BOOT_FLAG_UNSET, BOOT_FLAG_UNSET, 0⟩

/-- The error dispatch of `boot_swap_type_multi`, as a function of the outcomes of
the two slot-state reads: a failed primary read returns PANIC; a secondary read
failing with `BOOT_EFLASH` is replaced by the synthesized empty state; any other
secondary failure returns PANIC; otherwise the decision table is matched. -/
def boot_swap_type_with (primary_rc secondary_rc : Except Int BootSwapState) : Nat :=
  match primary_rc with
  | .error _ => BOOT_SWAP_TYPE_PANIC
  | .ok primary =>
    match secondary_rc with
    | .error e =>
      if e = BOOT_EFLASH then boot_swap_type_match primary emptySecondaryState
      else BOOT_SWAP_TYPE_PANIC
    | .ok secondary => boot_swap_type_match primary secondary

/-- Modelled from the spec: the primary-slot read hook (`boot_public_hooks.h` is not
among the sources); it either asks for regular processing, supplies a state, or fails. -/
inductive HookResult where
  | regular
  | okState (st : BootSwapState)
  | err (rc : Int)

/-- The flash environment of `boot_swap_type_multi`: the optional primary-read hook
and the two flash areas of each image pair (`none` models a failing
`flash_area_open`). -/
structure BootEnv where
  primary_hook : Nat → HookResult
  primary_area : Nat → Option Flash
  secondary_area : Nat → Option Flash

/-- Source `boot_read_swap_state_by_id`: open the area (failure is `BOOT_EFLASH`) and read
its swap state. -/
def boot_read_swap_state_by_id (area : Option Flash) : Except Int BootSwapState :=
  match area with
  | none => .error BOOT_EFLASH
  | some f => boot_read_swap_state f

/-- Source `boot_swap_type_multi`: read the primary state (through the hook when it answers),
read the secondary state, and dispatch as in `boot_swap_type_with`. -/
def boot_swap_type_multi (env : BootEnv) (image_index : Nat) : Nat :=
  let primary_rc :=
    match env.primary_hook image_index with
    | .regular => boot_read_swap_state_by_id (env.primary_area image_index)
    | .okState st => .ok st
    | .err e => .error e
  boot_swap_type_with primary_rc
    (boot_read_swap_state_by_id (env.secondary_area image_index))

/-- Source `boot_swap_type`: the legacy single-image shim. -/
def boot_swap_type (env : BootEnv) : Nat := boot_swap_type_multi env 0

/-- Source `boot_set_pending_multi`, acting on the already-opened secondary flash area of
the selected image pair (the image index only chooses the area passed to
`flash_area_open`): dispatch on the decoded magic as in the source switch. -/
def boot_set_pending_multi (s : FlashST) (permanent : Bool) : Int × FlashST :=
  match boot_read_swap_state s.flash with
  | .error e => (e, s)
  | .ok st =>
    if st.magic = BOOT_MAGIC_GOOD then
      (0, s)
    else if st.magic = BOOT_MAGIC_UNSET then
      let r1 := boot_write_magic s
      let r2 := if r1.1 = 0 ∧ permanent then boot_write_image_ok r1.2 else r1
      if r2.1 = 0 then
        let swap_type :=
          if permanent then BOOT_SWAP_TYPE_PERM else BOOT_SWAP_TYPE_TEST
        boot_write_swap_info r2.2 swap_type 0
      else r2
    else if st.magic = BOOT_MAGIC_BAD then
      let r := fa_erase s 0 s.flash.size
      (BOOT_EBADIMAGE, r.2)
    else
      (BOOT_EBADIMAGE, s)

/-- Source `boot_set_confirmed_multi`, acting on the already-opened primary flash area:
UNSET magic means already confirmed, BAD is `BOOT_EBADVECT`, GOOD proceeds and
writes image-ok only when it still reads UNSET. -/
def boot_set_confirmed_multi (s : FlashST) : Int × FlashST :=
  match boot_read_swap_state s.flash with
  | .error e => (e, s)
  | .ok st =>
    if st.magic = BOOT_MAGIC_UNSET then
      (0, s)
    else if st.magic = BOOT_MAGIC_BAD then
      (BOOT_EBADVECT, s)
    else
      if st.image_ok ≠ BOOT_FLAG_UNSET then (0, s)
      else boot_write_image_ok s

/-- The claim reading of the trailer-layout step: the platform flash write
alignment capped to the compile-time constant `BOOT_MAX_ALIGN`.  Written from the
claim words, to be compared with the offsets the source computes. -/
def claimAlign (f : Flash) : Nat := min f.align BOOT_MAX_ALIGN

/-- The image-ok offset as the claim words it: one `claimAlign` step below the magic. -/
def claim_image_ok_off (f : Flash) : Nat := boot_magic_off f - claimAlign f

/-- The copy-done offset as the claim words it. -/
def claim_copy_done_off (f : Flash) : Nat := claim_image_ok_off f - claimAlign f

/-- The swap-info offset as the claim words it. -/
def claim_swap_info_off (f : Flash) : Nat := claim_copy_done_off f - claimAlign f

/-! Concrete flash areas and slot states used to instantiate the theorems. -/

/-- A fully erased 64 KiB area with erased value 0xFF and alignment 8. -/
def slotErasedFF : Flash :=
  ⟨0x10000, 8, 0xFF, fun _ => 0xFF, fun _ _ => true, fun _ _ => true, fun _ _ => true⟩

/-- A fully erased 64 KiB area with erased value 0x00. -/
def slotErased00 : Flash :=
  ⟨0x10000, 8, 0x00, fun _ => 0x00, fun _ _ => true, fun _ _ => true, fun _ _ => true⟩

/-- An area whose bytes are all zero while the erased value is 0xFF: its magic
decodes as BAD. -/
def slotBad : Flash :=
  ⟨0x10000, 8, 0xFF, fun _ => 0, fun _ _ => true, fun _ _ => true, fun _ _ => true⟩

/-- Like `slotBad`, but every erase operation fails. -/
def slotBadNoErase : Flash :=
  ⟨0x10000, 8, 0xFF, fun _ => 0, fun _ _ => true, fun _ _ => true, fun _ _ => false⟩

/-- Contents of a slot carrying the canonical magic in its last 16 bytes and erased
bytes everywhere else. -/
def goodSlotData (size : Nat) : Nat → Nat := fun a =>
  if size - 16 ≤ a ∧ a < size then boot_img_magic.getD (a - (size - 16)) 0 else 0xFF

/-- A 64 KiB area whose trailer magic is GOOD and whose flags are all erased. -/
def slotGood : Flash :=
  ⟨0x10000, 8, 0xFF, goodSlotData 0x10000, fun _ _ => true, fun _ _ => true,
   fun _ _ => true⟩

/-- A 64-byte area with write alignment 1: the claimed capped-alignment offsets
disagree with the offsets the source computes on it. -/
def cexC2 : Flash :=
  ⟨64, 1, 0xFF, fun _ => 0xFF, fun _ _ => true, fun _ _ => true, fun _ _ => true⟩

/-- A slot state with every field unset. -/
def stAllUnset : BootSwapState :=
  ⟨BOOT_MAGIC_UNSET, BOOT_SWAP_TYPE_NONE, BOOT_FLAG_UNSET, BOOT_FLAG_UNSET, 0⟩

/-- A secondary state holding a good magic and an unset image-ok (table row 1). -/
def stGoodTest : BootSwapState :=
  ⟨BOOT_MAGIC_GOOD, BOOT_SWAP_TYPE_TEST, BOOT_FLAG_UNSET, BOOT_FLAG_UNSET, 0⟩

/-- A secondary state holding a good magic and a set image-ok (table row 2). -/
def stGoodPerm : BootSwapState :=
  ⟨BOOT_MAGIC_GOOD, BOOT_SWAP_TYPE_PERM, BOOT_FLAG_UNSET, BOOT_FLAG_SET, 0⟩

/-- A primary state after a completed, unconfirmed swap (table row 3). -/
def stRevertPrimary : BootSwapState :=
  ⟨BOOT_MAGIC_GOOD, BOOT_SWAP_TYPE_NONE, BOOT_FLAG_SET, BOOT_FLAG_UNSET, 0⟩

/-- A primary state with a good magic and all flags unset. -/
def stGoodAllUnset : BootSwapState :=
  ⟨BOOT_MAGIC_GOOD, BOOT_SWAP_TYPE_NONE, BOOT_FLAG_UNSET, BOOT_FLAG_UNSET, 0⟩

/-! Claim theorems. -/

/-- C7: for every 4-bit image number and swap type, unpacking the packed swap-info
byte returns exactly the pair that was packed: the low nibble is the swap type and
the high nibble is the image number. -/
theorem swap_info_pack_unpack_roundtrip :
    ∀ image_num < 16, ∀ swap_type < 16,
      BOOT_GET_SWAP_TYPE (BOOT_SET_SWAP_INFO image_num swap_type) = swap_type ∧
      BOOT_GET_IMAGE_NUM (BOOT_SET_SWAP_INFO image_num swap_type) = image_num := by
  decide

/-- Witness for C7 at image number 5, swap type 3. -/
theorem swap_info_pack_unpack_roundtrip_witness :
    BOOT_GET_SWAP_TYPE (BOOT_SET_SWAP_INFO 5 3) = 3 ∧
    BOOT_GET_IMAGE_NUM (BOOT_SET_SWAP_INFO 5 3) = 5 :=
  swap_info_pack_unpack_roundtrip 5 (by decide) 3 (by decide)

/-- C2, counterexample: on a 64-byte area with write alignment 1 the source places
image-ok at offset 40 (one `BOOT_MAX_ALIGN` step below the magic), not at offset 47
as the claim step `A = min(alignment, MAX_ALIGN) = 1` would demand. -/
theorem trailer_offsets_claim_counterexample :
    ¬ (boot_image_ok_off cexC2 = claim_image_ok_off cexC2) := by decide

/-- C2, amended: the trailer offsets computed by the source are
`off(magic) = S - 16` and then steps of the compile-time constant `BOOT_MAX_ALIGN`,
independent of the area write alignment; the claimed capped-alignment offsets
coincide with them exactly when the write alignment is at least `BOOT_MAX_ALIGN`. -/
theorem trailer_offsets_use_max_align (f : Flash) :
    (boot_magic_off f = f.size - 16 ∧
     boot_image_ok_off f = boot_magic_off f - BOOT_MAX_ALIGN ∧
     boot_copy_done_off f = boot_image_ok_off f - BOOT_MAX_ALIGN ∧
     boot_swap_info_off f = boot_copy_done_off f - BOOT_MAX_ALIGN) ∧
    (BOOT_MAX_ALIGN ≤ f.align →
      claim_image_ok_off f = boot_image_ok_off f ∧
      claim_copy_done_off f = boot_copy_done_off f ∧
      claim_swap_info_off f = boot_swap_info_off f) := by
  refine ⟨⟨rfl, rfl, rfl, rfl⟩, fun h => ?_⟩
  have hmin : claimAlign f = BOOT_MAX_ALIGN := min_eq_right h
  refine ⟨?_, ?_, ?_⟩ <;>
    simp [claim_image_ok_off, claim_copy_done_off, claim_swap_info_off, hmin,
      boot_image_ok_off, boot_copy_done_off, boot_swap_info_off]

/-- Witness for C2 amended theorem on `slotErasedFF`, whose alignment is 8. -/
theorem trailer_offsets_use_max_align_witness :
    claim_image_ok_off slotErasedFF = boot_image_ok_off slotErasedFF ∧
    claim_copy_done_off slotErasedFF = boot_copy_done_off slotErasedFF ∧
    claim_swap_info_off slotErasedFF = boot_swap_info_off slotErasedFF :=
  (trailer_offsets_use_max_align slotErasedFF).2 (by decide)

/-- C1: the matching loop evaluates the three table rows in order: a GOOD secondary
magic with UNSET secondary image-ok yields TEST, with SET secondary image-ok yields
PERM; a GOOD primary magic with UNSET secondary magic, UNSET primary image-ok and
SET primary copy-done yields REVERT; when no row matches — in particular when both
slots are fully UNSET — the result is NONE. -/
theorem swap_table_rows (p s : BootSwapState) :
    (s.magic = BOOT_MAGIC_GOOD ∧ s.image_ok = BOOT_FLAG_UNSET →
      boot_swap_type_match p s = BOOT_SWAP_TYPE_TEST) ∧
    (s.magic = BOOT_MAGIC_GOOD ∧ s.image_ok = BOOT_FLAG_SET →
      boot_swap_type_match p s = BOOT_SWAP_TYPE_PERM) ∧
    (p.magic = BOOT_MAGIC_GOOD ∧ s.magic = BOOT_MAGIC_UNSET ∧
     p.image_ok = BOOT_FLAG_UNSET ∧ p.copy_done = BOOT_FLAG_SET →
      boot_swap_type_match p s = BOOT_SWAP_TYPE_REVERT) ∧
    ((∀ t ∈ boot_swap_tables, rowMatches t p s = false) →
      boot_swap_type_match p s = BOOT_SWAP_TYPE_NONE) ∧
    (p.magic = BOOT_MAGIC_UNSET ∧ s.magic = BOOT_MAGIC_UNSET ∧
     p.image_ok = BOOT_FLAG_UNSET ∧ s.image_ok = BOOT_FLAG_UNSET ∧
     p.copy_done = BOOT_FLAG_UNSET ∧ s.copy_done = BOOT_FLAG_UNSET →
      boot_swap_type_match p s = BOOT_SWAP_TYPE_NONE) := by
  refine ⟨fun h => ?_, fun h => ?_, fun h => ?_, fun h => ?_, fun h => ?_⟩
  · obtain ⟨h1, h2⟩ := h
    simp [boot_swap_type_match, boot_swap_tables, List.find?, rowMatches,
      boot_magic_compatible_check, h1, h2, BOOT_MAGIC_ANY, BOOT_MAGIC_GOOD,
      BOOT_MAGIC_NOTGOOD, BOOT_FLAG_ANY, BOOT_FLAG_UNSET, BOOT_FLAG_SET,
      BOOT_SWAP_TYPE_TEST, BOOT_SWAP_TYPE_PERM, BOOT_SWAP_TYPE_REVERT]
  · obtain ⟨h1, h2⟩ := h
    simp [boot_swap_type_match, boot_swap_tables, List.find?, rowMatches,
      boot_magic_compatible_check, h1, h2, BOOT_MAGIC_ANY, BOOT_MAGIC_GOOD,
      BOOT_MAGIC_NOTGOOD, BOOT_FLAG_ANY, BOOT_FLAG_UNSET, BOOT_FLAG_SET,
      BOOT_SWAP_TYPE_TEST, BOOT_SWAP_TYPE_PERM, BOOT_SWAP_TYPE_REVERT]
  · obtain ⟨h1, h2, h3, h4⟩ := h
    simp [boot_swap_type_match, boot_swap_tables, List.find?, rowMatches,
      boot_magic_compatible_check, h1, h2, h3, h4, BOOT_MAGIC_ANY, BOOT_MAGIC_GOOD,
      BOOT_MAGIC_UNSET, BOOT_MAGIC_NOTGOOD, BOOT_FLAG_ANY, BOOT_FLAG_UNSET,
      BOOT_FLAG_SET, BOOT_SWAP_TYPE_TEST, BOOT_SWAP_TYPE_PERM,
      BOOT_SWAP_TYPE_REVERT]
  · have hn : boot_swap_tables.find? (fun t => rowMatches t p s) = none :=
      List.find?_eq_none.mpr (by intro t ht; simp [h t ht])
    simp [boot_swap_type_match, hn]
  · obtain ⟨h1, h2, h3, h4, h5, h6⟩ := h
    simp [boot_swap_type_match, boot_swap_tables, List.find?, rowMatches,
      boot_magic_compatible_check, h1, h2, h3, h4, h5, h6, BOOT_MAGIC_ANY,
      BOOT_MAGIC_GOOD, BOOT_MAGIC_UNSET, BOOT_MAGIC_NOTGOOD, BOOT_FLAG_ANY,
      BOOT_FLAG_UNSET, BOOT_FLAG_SET, BOOT_SWAP_TYPE_NONE]

/-- Witness for C1: each row of the decision table fired on concrete slot states,
and the all-UNSET pair matching no row. -/
theorem swap_table_rows_witness :
    boot_swap_type_match stAllUnset stGoodTest = BOOT_SWAP_TYPE_TEST ∧
    boot_swap_type_match stAllUnset stGoodPerm = BOOT_SWAP_TYPE_PERM ∧
    boot_swap_type_match stRevertPrimary stAllUnset = BOOT_SWAP_TYPE_REVERT ∧
    boot_swap_type_match stAllUnset stAllUnset = BOOT_SWAP_TYPE_NONE :=
  ⟨(swap_table_rows stAllUnset stGoodTest).1 ⟨rfl, rfl⟩,
   (swap_table_rows stAllUnset stGoodPerm).2.1 ⟨rfl, rfl⟩,
   (swap_table_rows stRevertPrimary stAllUnset).2.2.1 ⟨rfl, rfl, rfl, rfl⟩,
   (swap_table_rows stAllUnset stAllUnset).2.2.2.1 (by decide)⟩

/-- C4: in the error dispatch of `boot_swap_type_multi`, a secondary read failing
with `BOOT_EFLASH` is replaced by the synthesized all-UNSET state and table matching
proceeds (so a readable primary with GOOD magic and UNSET flags yields NONE, not
PANIC); a failed primary read, or a secondary read failing with any error other than
`BOOT_EFLASH`, yields PANIC. -/
theorem swap_type_error_dispatch :
    (∀ ps : BootSwapState,
      boot_swap_type_with (.ok ps) (.error BOOT_EFLASH) =
        boot_swap_type_match ps emptySecondaryState) ∧
    (∀ ps : BootSwapState,
      ps.magic = BOOT_MAGIC_GOOD → ps.image_ok = BOOT_FLAG_UNSET →
      ps.copy_done = BOOT_FLAG_UNSET →
      boot_swap_type_with (.ok ps) (.error BOOT_EFLASH) = BOOT_SWAP_TYPE_NONE) ∧
    (∀ (e : Int) (sr : Except Int BootSwapState),
      boot_swap_type_with (.error e) sr = BOOT_SWAP_TYPE_PANIC) ∧
    (∀ (e : Int) (ps : BootSwapState), e ≠ BOOT_EFLASH →
      boot_swap_type_with (.ok ps) (.error e) = BOOT_SWAP_TYPE_PANIC) := by
  refine ⟨fun ps => rfl, fun ps h1 h2 h3 => ?_, fun e sr => rfl, fun e ps he => ?_⟩
  · show boot_swap_type_match ps emptySecondaryState = BOOT_SWAP_TYPE_NONE
    simp [boot_swap_type_match, boot_swap_tables, List.find?, rowMatches,
      boot_magic_compatible_check, h1, h2, h3, emptySecondaryState, BOOT_MAGIC_ANY,
      BOOT_MAGIC_GOOD, BOOT_MAGIC_UNSET, BOOT_MAGIC_NOTGOOD, BOOT_FLAG_ANY,
      BOOT_FLAG_UNSET, BOOT_FLAG_SET, BOOT_SWAP_TYPE_NONE]
  · simp [boot_swap_type_with, he]

/-- Witness for C4: the unreachable-secondary case with a GOOD/UNSET primary
yields NONE, and concrete failed reads yield PANIC. -/
theorem swap_type_error_dispatch_witness :
    boot_swap_type_with (.ok stGoodAllUnset) (.error BOOT_EFLASH) =
      BOOT_SWAP_TYPE_NONE ∧
    boot_swap_type_with (.error BOOT_EFLASH) (.ok stAllUnset) =
      BOOT_SWAP_TYPE_PANIC ∧
    boot_swap_type_with (.ok stAllUnset) (.error 7) = BOOT_SWAP_TYPE_PANIC :=
  ⟨swap_type_error_dispatch.2.1 stGoodAllUnset rfl rfl rfl,
   swap_type_error_dispatch.2.2.1 BOOT_EFLASH (.ok stAllUnset),
   swap_type_error_dispatch.2.2.2 7 stAllUnset (by decide)⟩

/-- C5: when the secondary slot magic decodes as BAD, `boot_set_pending_multi`
issues one erase of the entire area (offset 0, full area size) and returns
`BOOT_EBADIMAGE`, for either value of the permanent flag. -/
theorem set_pending_bad_erases (s : FlashST) (st : BootSwapState) (permanent : Bool)
    (h : boot_read_swap_state s.flash = .ok st) (hb : st.magic = BOOT_MAGIC_BAD) :
    (boot_set_pending_multi s permanent).1 = BOOT_EBADIMAGE ∧
    (boot_set_pending_multi s permanent).2.trace =
      s.trace ++ [.eraseOp 0 s.flash.size] := by
  simp only [boot_set_pending_multi, h, hb]
  simp only [BOOT_MAGIC_BAD, BOOT_MAGIC_GOOD, BOOT_MAGIC_UNSET]
  norm_num
  unfold fa_erase
  split <;> simp

/-- Witness for C5 on `slotBad`, whose trailer bytes are all zero under erased value
0xFF. -/
theorem set_pending_bad_erases_witness :
    (boot_set_pending_multi ⟨slotBad, []⟩ false).1 = BOOT_EBADIMAGE ∧
    (boot_set_pending_multi ⟨slotBad, []⟩ false).2.trace =
      [] ++ [.eraseOp 0 slotBad.size] :=
  set_pending_bad_erases ⟨slotBad, []⟩
    ⟨BOOT_MAGIC_BAD, BOOT_SWAP_TYPE_NONE, BOOT_FLAG_BAD, BOOT_FLAG_BAD, 0⟩ false
    (by decide) rfl

/-- C10: in the BAD-magic branch of `boot_set_pending_multi` the erase result is
discarded: even when the driver erase fails, the area is left unchanged and the
function still returns `BOOT_EBADIMAGE`, never the erase failure. -/
theorem set_pending_bad_ignores_erase_failure (s : FlashST) (st : BootSwapState)
    (permanent : Bool)
    (h : boot_read_swap_state s.flash = .ok st) (hb : st.magic = BOOT_MAGIC_BAD)
    (he : s.flash.erase_ok 0 s.flash.size = false) :
    (boot_set_pending_multi s permanent).1 = BOOT_EBADIMAGE ∧
    (boot_set_pending_multi s permanent).2.flash = s.flash := by
  simp only [boot_set_pending_multi, h, hb]
  simp only [BOOT_MAGIC_BAD, BOOT_MAGIC_GOOD, BOOT_MAGIC_UNSET]
  norm_num
  simp [fa_erase, he]

/-- Witness for C10 on `slotBadNoErase`, whose erase operations all fail. -/
theorem set_pending_bad_ignores_erase_failure_witness :
    (boot_set_pending_multi ⟨slotBadNoErase, []⟩ false).1 = BOOT_EBADIMAGE ∧
    (boot_set_pending_multi ⟨slotBadNoErase, []⟩ false).2.flash = slotBadNoErase :=
  set_pending_bad_ignores_erase_failure ⟨slotBadNoErase, []⟩
    ⟨BOOT_MAGIC_BAD, BOOT_SWAP_TYPE_NONE, BOOT_FLAG_BAD, BOOT_FLAG_BAD, 0⟩ false
    (by decide) rfl rfl

/-- C8: when the secondary slot magic already decodes as GOOD,
`boot_set_pending_multi` returns success with the flash state and the operation
trace untouched: no write and no erase is issued and the contents are unchanged,
for either value of the permanent flag. -/
theorem set_pending_good_noop (s : FlashST) (st : BootSwapState) (permanent : Bool)
    (h : boot_read_swap_state s.flash = .ok st) (hg : st.magic = BOOT_MAGIC_GOOD) :
    boot_set_pending_multi s permanent = (0, s) := by
  simp [boot_set_pending_multi, h, hg]

/-- Witness for C8 on `slotGood`, whose trailer magic is GOOD. -/
theorem set_pending_good_noop_witness :
    boot_set_pending_multi ⟨slotGood, []⟩ true = (0, ⟨slotGood, []⟩) :=
  set_pending_good_noop ⟨slotGood, []⟩
    ⟨BOOT_MAGIC_GOOD, BOOT_SWAP_TYPE_NONE, BOOT_FLAG_UNSET, BOOT_FLAG_UNSET, 0⟩
    true (by decide) rfl

/-- Any flag value delivered by a successful `boot_read_flag` is SET, UNSET or BAD. -/
theorem boot_read_flag_cases (f : Flash) (off v : Nat)
    (h : boot_read_flag f off = .ok v) :
    v = BOOT_FLAG_SET ∨ v = BOOT_FLAG_UNSET ∨ v = BOOT_FLAG_BAD := by
  unfold boot_read_flag at h
  split at h
  · exact absurd h (by simp)
  · simp only [boot_flag_decode] at h
    split at h
    · cases h; right; left; rfl
    · split at h
      · cases h; right; right; rfl
      · cases h; left; rfl

/-- C3: reading the swap state of a slot whose trailer bytes all equal the erased
value (0x00 or 0xFF) succeeds with magic UNSET, swap type NONE, copy-done and
image-ok UNSET and image number 0. -/
theorem read_swap_state_erased (f : Flash)
    (hr : ∀ off len, f.read_ok off len = true)
    (hv : f.erased_val = 0x00 ∨ f.erased_val = 0xFF)
    (hs : 40 ≤ f.size)
    (hd : ∀ a, boot_swap_info_off f ≤ a → a < f.size → f.data a = f.erased_val) :
    boot_read_swap_state f =
      .ok ⟨BOOT_MAGIC_UNSET, BOOT_SWAP_TYPE_NONE, BOOT_FLAG_UNSET, BOOT_FLAG_UNSET,
        0⟩ := by
  have hv256 : f.erased_val % 256 = f.erased_val := by
    rcases hv with h | h <;> rw [h]
  have hEB : f.erasedByte = f.erased_val := hv256
  have hoff : boot_swap_info_off f = f.size - 40 := by
    simp only [boot_swap_info_off, boot_copy_done_off, boot_image_ok_off,
      boot_magic_off, BOOT_MAGIC_SZ, BOOT_MAX_ALIGN]
    omega
  have hbyte : ∀ a, f.size - 40 ≤ a → a < f.size → f.data a % 256 = f.erasedByte := by
    intro a h1 h2
    rw [hd a (by omega) h2, hv256, hEB]
  have hmoff : boot_magic_off f = f.size - 16 := rfl
  have hm : flash_area_read f (boot_magic_off f) BOOT_MAGIC_SZ =
      some (List.replicate 16 f.erasedByte) := by
    simp only [flash_area_read, hr, if_true, BOOT_MAGIC_SZ]
    refine congrArg some (List.eq_replicate_iff.mpr ⟨by simp, ?_⟩)
    intro b hb
    simp only [List.mem_map, List.mem_range] at hb
    obtain ⟨j, hj, rfl⟩ := hb
    rw [hmoff]
    exact hbyte _ (by omega) (by omega)
  have hone : ∀ off, f.size - 40 ≤ off → off < f.size →
      flash_area_read f off 1 = some [f.erasedByte] := by
    intro off h1 h2
    simp only [flash_area_read, hr, if_true]
    refine congrArg some ?_
    simp only [show List.range 1 = [0] from rfl, List.map_cons, List.map_nil,
      Nat.add_zero]
    rw [hbyte off h1 h2]
  have hsi : flash_area_read f (boot_swap_info_off f) 1 = some [f.erasedByte] := by
    rw [hoff]; exact hone _ (by omega) (by omega)
  have hcdo : boot_copy_done_off f = f.size - 32 := by
    simp only [boot_copy_done_off, boot_image_ok_off, boot_magic_off,
      BOOT_MAGIC_SZ, BOOT_MAX_ALIGN]
    omega
  have himgoff : boot_image_ok_off f = f.size - 24 := by
    simp only [boot_image_ok_off, boot_magic_off, BOOT_MAGIC_SZ, BOOT_MAX_ALIGN]
    omega
  have hcd : flash_area_read f (boot_copy_done_off f) 1 = some [f.erasedByte] := by
    rw [hcdo]; exact hone _ (by omega) (by omega)
  have hflagu : flash_area_read f (boot_image_ok_off f) 1 = some [f.erasedByte] := by
    rw [himgoff]; exact hone _ (by omega) (by omega)
  simp only [boot_read_swap_state, hm, hsi, boot_read_copy_done,
    boot_read_image_ok, boot_read_flag, hcd, hflagu]
  simp [bootutil_buffer_is_erased, bootutil_buffer_is_filled, List.all_eq_true,
    List.eq_replicate_iff]

/-- Witness for C3 on the two fully erased areas, one per erased value. -/
theorem read_swap_state_erased_witness :
    boot_read_swap_state slotErasedFF =
      .ok ⟨BOOT_MAGIC_UNSET, BOOT_SWAP_TYPE_NONE, BOOT_FLAG_UNSET, BOOT_FLAG_UNSET,
        0⟩ ∧
    boot_read_swap_state slotErased00 =
      .ok ⟨BOOT_MAGIC_UNSET, BOOT_SWAP_TYPE_NONE, BOOT_FLAG_UNSET, BOOT_FLAG_UNSET,
        0⟩ :=
  ⟨read_swap_state_erased slotErasedFF (fun _ _ => rfl) (Or.inr rfl) (by decide)
    (fun _ _ _ => rfl),
   read_swap_state_erased slotErased00 (fun _ _ => rfl) (Or.inl rfl) (by decide)
    (fun _ _ _ => rfl)⟩

/-- C9: every state a successful `boot_read_swap_state` produces lies in the decoded
ranges: magic in {GOOD, UNSET, BAD}, swap type in {NONE, TEST, PERM, REVERT} (never
FAIL, PANIC or anything above REVERT), copy-done and image-ok in {SET, UNSET, BAD};
and when the raw swap-info byte is erased or its low nibble exceeds REVERT, the swap
type is normalized to NONE with image number 0. -/
theorem read_swap_state_ranges (f : Flash) (st : BootSwapState)
    (h : boot_read_swap_state f = .ok st) :
    (st.magic = BOOT_MAGIC_GOOD ∨ st.magic = BOOT_MAGIC_UNSET ∨
     st.magic = BOOT_MAGIC_BAD) ∧
    (st.swap_type = BOOT_SWAP_TYPE_NONE ∨ st.swap_type = BOOT_SWAP_TYPE_TEST ∨
     st.swap_type = BOOT_SWAP_TYPE_PERM ∨ st.swap_type = BOOT_SWAP_TYPE_REVERT) ∧
    (st.copy_done = BOOT_FLAG_SET ∨ st.copy_done = BOOT_FLAG_UNSET ∨
     st.copy_done = BOOT_FLAG_BAD) ∧
    (st.image_ok = BOOT_FLAG_SET ∨ st.image_ok = BOOT_FLAG_UNSET ∨
     st.image_ok = BOOT_FLAG_BAD) ∧
    ((f.data (boot_swap_info_off f) % 256 = f.erasedByte ∨
      BOOT_SWAP_TYPE_REVERT <
        BOOT_GET_SWAP_TYPE (f.data (boot_swap_info_off f) % 256)) →
      st.swap_type = BOOT_SWAP_TYPE_NONE ∧ st.image_num = 0) := by
  obtain ⟨m, w, c, i, n⟩ := st
  unfold boot_read_swap_state at h
  cases hm : flash_area_read f (boot_magic_off f) BOOT_MAGIC_SZ with
  | none => rw [hm] at h; exact absurd h (by simp)
  | some magicbuf =>
  rw [hm] at h
  cases hsi : flash_area_read f (boot_swap_info_off f) 1 with
  | none => rw [hsi] at h; exact absurd h (by simp)
  | some sibuf =>
  rw [hsi] at h
  cases hcd : boot_read_copy_done f with
  | error e => rw [hcd] at h; exact absurd h (by simp)
  | ok cd =>
  rw [hcd] at h
  cases hflagu : boot_read_image_ok f with
  | error e => rw [hflagu] at h; exact absurd h (by simp)
  | ok iov =>
  rw [hflagu] at h
  have hbuf : sibuf = [f.data (boot_swap_info_off f) % 256] := by
    unfold flash_area_read at hsi
    split at hsi
    · have h2 := Option.some.inj hsi
      rw [← h2]
      simp [show List.range 1 = [0] from rfl]
    · exact absurd hsi (by simp)
  subst hbuf
  simp only at h
  injection h with hX
  injection hX with e1 e2 e3 e4 e5
  subst e1 e2 e3 e4 e5
  refine ⟨?_, ?_, ?_, ?_, ?_⟩ <;> dsimp only
  · split
    · right; left; rfl
    · unfold boot_magic_decode
      split
      · left; rfl
      · right; right; rfl
  · split
    · left; rfl
    · rename_i hnorm
      push_neg at hnorm
      have h2 := hnorm.2
      simp only [BOOT_SWAP_TYPE_NONE, BOOT_SWAP_TYPE_TEST, BOOT_SWAP_TYPE_PERM,
        BOOT_SWAP_TYPE_REVERT] at *
      omega
  · exact boot_read_flag_cases f (boot_copy_done_off f) cd hcd
  · exact boot_read_flag_cases f (boot_image_ok_off f) iov hflagu
  · intro hcond
    simp only [List.headD]
    constructor
    · rw [if_pos]
      exact hcond
    · rw [if_pos]
      exact hcond

/-- The state `boot_read_swap_state` decodes from `slotBad`. -/
def stSlotBad : BootSwapState :=
  ⟨BOOT_MAGIC_BAD, BOOT_SWAP_TYPE_NONE, BOOT_FLAG_BAD, BOOT_FLAG_BAD, 0⟩

/-- Witness for C9 on `slotBad`, whose trailer decodes to BAD magic and BAD flags. -/
theorem read_swap_state_ranges_witness :
    (stSlotBad.magic = BOOT_MAGIC_GOOD ∨ stSlotBad.magic = BOOT_MAGIC_UNSET ∨
     stSlotBad.magic = BOOT_MAGIC_BAD) ∧
    (stSlotBad.swap_type = BOOT_SWAP_TYPE_NONE ∨
     stSlotBad.swap_type = BOOT_SWAP_TYPE_TEST ∨
     stSlotBad.swap_type = BOOT_SWAP_TYPE_PERM ∨
     stSlotBad.swap_type = BOOT_SWAP_TYPE_REVERT) ∧
    (stSlotBad.copy_done = BOOT_FLAG_SET ∨ stSlotBad.copy_done = BOOT_FLAG_UNSET ∨
     stSlotBad.copy_done = BOOT_FLAG_BAD) ∧
    (stSlotBad.image_ok = BOOT_FLAG_SET ∨ stSlotBad.image_ok = BOOT_FLAG_UNSET ∨
     stSlotBad.image_ok = BOOT_FLAG_BAD) ∧
    ((slotBad.data (boot_swap_info_off slotBad) % 256 = slotBad.erasedByte ∨
      BOOT_SWAP_TYPE_REVERT <
        BOOT_GET_SWAP_TYPE (slotBad.data (boot_swap_info_off slotBad) % 256)) →
      stSlotBad.swap_type = BOOT_SWAP_TYPE_NONE ∧ stSlotBad.image_num = 0) :=
  read_swap_state_ranges slotBad stSlotBad (by decide)

/-- Bytes outside the written window are untouched by `writeBytes`. -/
theorem writeBytes_outside (data : Nat → Nat) (off : Nat) (buf : List Nat) (a : Nat)
    (h : a < off ∨ off + buf.length ≤ a) : writeBytes data off buf a = data a := by
  unfold writeBytes
  rw [if_neg]
  omega

/-- The first written byte lands at the write offset. -/
theorem writeBytes_head (data : Nat → Nat) (off b : Nat) (rest : List Nat) :
    writeBytes data off (b :: rest) off = b := by
  unfold writeBytes
  rw [if_pos ⟨Nat.le_refl off, by simp⟩]
  simp

/-- The padded buffer `boot_write_image_ok` sends to the flash driver. -/
def imageOkBuf (f : Flash) : List Nat :=
  BOOT_FLAG_SET :: List.replicate (f.align - 1) f.erasedByte

/-- The flash area after `boot_write_image_ok` succeeded. -/
def imageOkWritten (f : Flash) : Flash :=
  { f with data := writeBytes f.data (boot_image_ok_off f) (imageOkBuf f) }

/-- C6: calling `boot_set_confirmed_multi` twice on a primary slot whose initial
magic is GOOD, with an erased byte other than 0x01 and all flash driver operations
succeeding, performs at most one write — to image-ok, on the first call — and both
calls return success; the second call leaves the flash state and trace untouched
because the re-read observes image-ok different from UNSET. -/
theorem set_confirmed_idempotent (f : Flash) (st : BootSwapState)
    (hr : ∀ off len, f.read_ok off len = true)
    (hw : ∀ off len, f.write_ok off len = true)
    (hv : f.erasedByte ≠ BOOT_FLAG_SET)
    (ha0 : 0 < f.align) (ha8 : f.align ≤ BOOT_MAX_ALIGN)
    (hs : 40 ≤ f.size)
    (h : boot_read_swap_state f = .ok st) (hg : st.magic = BOOT_MAGIC_GOOD) :
    (boot_set_confirmed_multi ⟨f, []⟩).1 = 0 ∧
    (boot_set_confirmed_multi (boot_set_confirmed_multi ⟨f, []⟩).2).1 = 0 ∧
    (boot_set_confirmed_multi (boot_set_confirmed_multi ⟨f, []⟩).2).2 =
      (boot_set_confirmed_multi ⟨f, []⟩).2 ∧
    ((boot_set_confirmed_multi ⟨f, []⟩).2.trace = [] ∨
     (boot_set_confirmed_multi ⟨f, []⟩).2.trace =
       [.writeOp (boot_image_ok_off f) (imageOkBuf f)]) := by
  obtain ⟨m, w, c, i, n⟩ := st
  have hg2 : m = BOOT_MAGIC_GOOD := hg
  have ha8n : f.align ≤ 8 := ha8
  by_cases hflagu : i = BOOT_FLAG_UNSET
  case neg =>
    have hcall : boot_set_confirmed_multi ⟨f, []⟩ = (0, ⟨f, []⟩) := by
      simp only [boot_set_confirmed_multi, h]
      simp [hg2, hflagu, BOOT_MAGIC_GOOD, BOOT_MAGIC_UNSET, BOOT_MAGIC_BAD]
    simp [hcall]
  case pos =>
    have himgoff : boot_image_ok_off f = f.size - 24 := by
      simp only [boot_image_ok_off, boot_magic_off, BOOT_MAGIC_SZ, BOOT_MAX_ALIGN]
      omega
    have hALn : (1 + f.align - 1) - (1 + f.align - 1) % f.align = f.align := by
      have h1 : 1 + f.align - 1 = f.align := by omega
      rw [h1, Nat.mod_self, Nat.sub_zero]
    have c1 : (f.align = 0) = False := eq_false (by omega)
    have c2 : (BOOT_MAX_ALIGN < f.align) = False := eq_false (not_lt.mpr ha8)
    have hbuflen : (imageOkBuf f).length = f.align := by
      simp [imageOkBuf]
      omega
    have hwimg : boot_write_image_ok ⟨f, []⟩ =
        (0, ⟨imageOkWritten f, [.writeOp (boot_image_ok_off f) (imageOkBuf f)]⟩) := by
      simp only [boot_write_image_ok, boot_write_trailer_flag, boot_write_trailer,
        List.length_singleton, hALn, c1, c2, if_false, fa_write,
        List.singleton_append, hbuflen, hw, if_true, imageOkWritten, imageOkBuf]
      simp
    have hcall1 : boot_set_confirmed_multi ⟨f, []⟩ =
        (0, ⟨imageOkWritten f, [.writeOp (boot_image_ok_off f) (imageOkBuf f)]⟩) := by
      simp only [boot_set_confirmed_multi, h]
      simp [hg2, hflagu, BOOT_MAGIC_GOOD, BOOT_MAGIC_UNSET, BOOT_MAGIC_BAD,
        BOOT_FLAG_UNSET, hwimg]
    have hpres : ∀ o l, o + l ≤ f.size - 24 ∨ f.size - 24 + f.align ≤ o →
        flash_area_read (imageOkWritten f) o l = flash_area_read f o l := by
      intro o l hcond
      have hro2 : ∀ o2 l2, (imageOkWritten f).read_ok o2 l2 = true := hr
      simp only [flash_area_read, hr, hro2, if_true]
      refine congrArg some (List.map_congr_left ?_)
      intro j hj
      simp only [List.mem_range] at hj
      have hout : (imageOkWritten f).data (o + j) = f.data (o + j) := by
        show writeBytes f.data (boot_image_ok_off f) (imageOkBuf f) (o + j) =
          f.data (o + j)
        apply writeBytes_outside
        rw [hbuflen, himgoff]
        omega
      rw [hout]
    have hswoff : boot_swap_info_off f = f.size - 40 := by
      simp only [boot_swap_info_off, boot_copy_done_off, boot_image_ok_off,
        boot_magic_off, BOOT_MAGIC_SZ, BOOT_MAX_ALIGN]
      omega
    have hcdoff : boot_copy_done_off f = f.size - 32 := by
      simp only [boot_copy_done_off, boot_image_ok_off, boot_magic_off,
        BOOT_MAGIC_SZ, BOOT_MAX_ALIGN]
      omega
    unfold boot_read_swap_state at h
    cases hmr : flash_area_read f (boot_magic_off f) BOOT_MAGIC_SZ with
    | none => rw [hmr] at h; exact absurd h (by simp)
    | some magicbuf =>
    rw [hmr] at h
    cases hsir : flash_area_read f (boot_swap_info_off f) 1 with
    | none => rw [hsir] at h; exact absurd h (by simp)
    | some sibuf =>
    rw [hsir] at h
    cases hcdr : boot_read_copy_done f with
    | error e => rw [hcdr] at h; exact absurd h (by simp)
    | ok cd =>
    rw [hcdr] at h
    cases hreadflag2 : boot_read_image_ok f with
    | error e => rw [hreadflag2] at h; exact absurd h (by simp)
    | ok iov2 =>
    rw [hreadflag2] at h
    simp only at h
    injection h with hX
    injection hX with e1 e2 e3 e4 e5
    have hA : flash_area_read (imageOkWritten f) (boot_magic_off (imageOkWritten f))
        BOOT_MAGIC_SZ = some magicbuf := by
      rw [show boot_magic_off (imageOkWritten f) = boot_magic_off f from rfl]
      rw [hpres (boot_magic_off f) BOOT_MAGIC_SZ ?side, hmr]
      case side =>
        rw [show boot_magic_off f = f.size - 16 from rfl,
          show BOOT_MAGIC_SZ = 16 from rfl]
        omega
    have hS : flash_area_read (imageOkWritten f)
        (boot_swap_info_off (imageOkWritten f)) 1 = some sibuf := by
      rw [show boot_swap_info_off (imageOkWritten f) = boot_swap_info_off f from rfl]
      rw [hpres (boot_swap_info_off f) 1 ?side2, hsir]
      case side2 =>
        rw [hswoff]
        omega
    have hC : boot_read_copy_done (imageOkWritten f) = .ok cd := by
      unfold boot_read_copy_done boot_read_flag
      rw [show boot_copy_done_off (imageOkWritten f) = boot_copy_done_off f from rfl]
      rw [hpres (boot_copy_done_off f) 1 (by rw [hcdoff]; omega)]
      unfold boot_read_copy_done boot_read_flag at hcdr
      rw [show (imageOkWritten f).erasedByte = f.erasedByte from rfl]
      exact hcdr
    have hI : boot_read_image_ok (imageOkWritten f) = .ok BOOT_FLAG_SET := by
      have hread1 : flash_area_read (imageOkWritten f) (boot_image_ok_off f) 1 =
          some [BOOT_FLAG_SET] := by
        have hro2 : ∀ o2 l2, (imageOkWritten f).read_ok o2 l2 = true := hr
        simp only [flash_area_read, hro2, if_true]
        refine congrArg some ?_
        simp only [show List.range 1 = [0] from rfl, List.map_cons, List.map_nil,
          Nat.add_zero]
        have hat : (imageOkWritten f).data (boot_image_ok_off f) = BOOT_FLAG_SET := by
          show writeBytes f.data (boot_image_ok_off f) (imageOkBuf f)
            (boot_image_ok_off f) = BOOT_FLAG_SET
          unfold imageOkBuf
          exact writeBytes_head f.data (boot_image_ok_off f) BOOT_FLAG_SET _
        rw [hat]
        rfl
      simp only [boot_read_image_ok, boot_read_flag,
        show boot_image_ok_off (imageOkWritten f) = boot_image_ok_off f from rfl,
        hread1, List.headD]
      rw [show (imageOkWritten f).erasedByte = f.erasedByte from rfl]
      rw [if_neg (fun hh => hv hh.symm)]
      simp [boot_flag_decode]
    have hread2 : boot_read_swap_state (imageOkWritten f) =
        .ok ⟨m, w, c, BOOT_FLAG_SET, n⟩ := by
      simp only [boot_read_swap_state, hA, hS, hC, hI]
      rw [show bootutil_buffer_is_erased (imageOkWritten f) magicbuf =
        bootutil_buffer_is_erased f magicbuf from rfl]
      rw [show (imageOkWritten f).erasedByte = f.erasedByte from rfl]
      rw [e1, e2, e3, e5]
    have hcall2 : boot_set_confirmed_multi
        ⟨imageOkWritten f, [.writeOp (boot_image_ok_off f) (imageOkBuf f)]⟩ =
        (0, ⟨imageOkWritten f, [.writeOp (boot_image_ok_off f) (imageOkBuf f)]⟩) := by
      simp only [boot_set_confirmed_multi, hread2]
      simp [hg2, BOOT_MAGIC_GOOD, BOOT_MAGIC_UNSET, BOOT_MAGIC_BAD,
        BOOT_FLAG_SET, BOOT_FLAG_UNSET]
    simp [hcall1, hcall2]


/-- Witness for C6 on `slotGood`: GOOD magic, erased image-ok, alignment 8. -/
theorem set_confirmed_idempotent_witness :
    (boot_set_confirmed_multi ⟨slotGood, []⟩).1 = 0 ∧
    (boot_set_confirmed_multi (boot_set_confirmed_multi ⟨slotGood, []⟩).2).1 = 0 ∧
    (boot_set_confirmed_multi (boot_set_confirmed_multi ⟨slotGood, []⟩).2).2 =
      (boot_set_confirmed_multi ⟨slotGood, []⟩).2 ∧
    ((boot_set_confirmed_multi ⟨slotGood, []⟩).2.trace = [] ∨
     (boot_set_confirmed_multi ⟨slotGood, []⟩).2.trace =
       [.writeOp (boot_image_ok_off slotGood) (imageOkBuf slotGood)]) :=
  set_confirmed_idempotent slotGood
    ⟨BOOT_MAGIC_GOOD, BOOT_SWAP_TYPE_NONE, BOOT_FLAG_UNSET, BOOT_FLAG_UNSET, 0⟩
    (fun _ _ => rfl) (fun _ _ => rfl) (by decide) (by decide) (by decide)
    (by decide) (by decide) rfl

end Bootutil
